import Mathlib

/-!
Verification development for the AI-Employee triage & approval workflow engine.

Shallow embedding of the core components described in `spec.md`:
the keyword classification engine (`skills/keyword_analyzer.py`), the
email planning workflow (`skills/email_planner.py`), the approved-plan
executor (`skills/approved_plan_executor.py`) and the watcher failure
manager (`Watchers/failure_manager.py`).

Modelling conventions:
* Python strings are modelled as `List Char` (named `Str` below); the
  byte-position based `String` operations of Lean do not reduce in the
  kernel, so all text operations are implemented over `List Char`.
* Python substring tests (`needle in haystack`) are `pyIn`.
* The file system (Obsidian vault folders) is modelled as explicit lists
  of named files inside a state record; a "move" removes a file from one
  list and appends its name to another.
* Wall-clock timestamps (`datetime.now()`) are opaque string or natural
  number parameters threaded through the state, since no claim depends on
  actual time values.
-/

namespace AIEmployee

/-- Text modelled as a list of characters (Python `str`). -/
abbrev Str := List Char

/-- Coerce a Lean string literal into the `Str` model. -/
def txt (x : String) : Str := x.data

/-- Python `needle in haystack` substring test. -/
def pyIn (pat : Str) : Str → Bool
  | [] => pat.isEmpty
  | c :: rest => pat.isPrefixOf (c :: rest) || pyIn pat rest

/-- Python `str.lower()` (ASCII case folding suffices for the embedded corpora). -/
def lowerS (l : Str) : Str := l.map Char.toLower

/-- Python whitespace class used by `str.strip()` and the regex `\s`. -/
def isSpaceC (c : Char) : Bool := c.isWhitespace

/-- Python `str.strip()`. -/
def stripS (l : Str) : Str :=
  ((l.dropWhile isSpaceC).reverse.dropWhile isSpaceC).reverse

/-- Character class of the regex `\w` (word character). -/
def isWordC (c : Char) : Bool := c.isAlphanum || c == '_'

/-- Python `str.startswith(p)`. -/
def startsWithS (l p : Str) : Bool := p.isPrefixOf l

/-- Decimal rendering of a natural number (for f-string interpolations of counts). -/
def natStr (n : Nat) : Str := Nat.toDigits 10 n

/-- Python `'sep'.join(parts)`. -/
def joinWith (sep : Str) : List Str → Str
  | [] => []
  | [x] => x
  | x :: xs => x ++ sep ++ joinWith sep xs

/-! ## KeywordAnalyzer (`skills/keyword_analyzer.py`)

The classifier is a pure function of (sender, subject, body); the optional
company-handbook keyword set is empty because no handbook file ships with
the repository (`_load_company_keywords` finds nothing to load), matching
`company_keywords = set()` after `__init__`.
-/

/-- `KeywordAnalyzer.PRIORITY_KEYWORDS` keyword→weight table, in source order. -/
def PRIORITY_KEYWORDS : List (Str × Nat) :=
  [(txt "urgent", 5), (txt "emergency", 5), (txt "critical", 5), (txt "immediate", 5),
   (txt "asap", 5), (txt "deadline today", 5), (txt "now", 5), (txt "right away", 5),
   (txt "deadline", 4), (txt "important", 4), (txt "priority", 4), (txt "time sensitive", 4),
   (txt "expiring", 4), (txt "expiring soon", 4), (txt "last chance", 4), (txt "final notice", 4),
   (txt "overdue", 4), (txt "payment due", 4), (txt "contract", 4), (txt "agreement", 4),
   (txt "legal", 4), (txt "compliance", 4), (txt "regulatory", 4), (txt "audit", 4),
   (txt "meeting", 3), (txt "call", 3), (txt "schedule", 3), (txt "appointment", 3),
   (txt "interview", 3), (txt "demo", 3), (txt "presentation", 3), (txt "review", 3),
   (txt "invoice", 3), (txt "quote", 3), (txt "proposal", 3), (txt "estimate", 3),
   (txt "project", 3), (txt "deliverable", 3), (txt "milestone", 3), (txt "release", 3),
   (txt "update", 2), (txt "status", 2), (txt "progress", 2), (txt "report", 2),
   (txt "question", 2), (txt "inquiry", 2), (txt "request", 2), (txt "help", 2),
   (txt "support", 2), (txt "assistance", 2), (txt "guidance", 2), (txt "advice", 2),
   (txt "feedback", 2), (txt "input", 2), (txt "thoughts", 2), (txt "opinion", 2),
   (txt "discussion", 2), (txt "consult", 2), (txt "advise", 2), (txt "confirm", 2),
   (txt "information", 1), (txt "fyi", 1), (txt "for your information", 1),
   (txt "newsletter", 1), (txt "announcement", 1), (txt "notification", 1),
   (txt "marketing", 1), (txt "promotion", 1), (txt "offer", 1)]

/-- `KeywordAnalyzer.RISK_KEYWORDS` keyword→score table, in source order. -/
def RISK_KEYWORDS : List (Str × Nat) :=
  [(txt "lawsuit", 100), (txt "legal action", 100), (txt "court", 100), (txt "litigation", 100),
   (txt "breach", 100), (txt "violation", 100), (txt "penalty", 100), (txt "fine", 100),
   (txt "complaint", 75), (txt "dispute", 75), (txt "conflict", 75), (txt "escalation", 75),
   (txt "unhappy", 75), (txt "dissatisfied", 75), (txt "cancel", 75), (txt "termination", 75),
   (txt "refund", 75), (txt "chargeback", 75), (txt "money back", 75),
   (txt "confidential", 50), (txt "secret", 50), (txt "proprietary", 50), (txt "sensitive", 50),
   (txt "nda", 50), (txt "non-disclosure", 50), (txt "private", 50),
   (txt "financial", 50), (txt "bank", 50), (txt "credit", 50), (txt "payment", 50),
   (txt "salary", 50), (txt "compensation", 50), (txt "negotiate", 50), (txt "bargain", 50),
   (txt "contract", 25), (txt "agreement", 25), (txt "terms", 25), (txt "conditions", 25),
   (txt "commit", 25), (txt "promise", 25), (txt "guarantee", 25), (txt "deadline", 25),
   (txt "delivery", 25), (txt "shipment", 25), (txt "launch", 25), (txt "release", 25)]

/-- `KeywordAnalyzer.BUSINESS_CRITICAL`: a Python `set` literal; listed in source
order with the duplicated entries (`contract`, `agreement` appear twice in the
literal) kept once, as a set does. -/
def BUSINESS_CRITICAL : List Str :=
  [txt "pricing", txt "price", txt "cost", txt "quote", txt "estimate", txt "proposal", txt "bid",
   txt "contract", txt "agreement", txt "nda", txt "sign", txt "signature", txt "execute",
   txt "commitment", txt "deliverable", txt "promise", txt "guarantee", txt "warranty",
   txt "payment", txt "invoice", txt "pay", txt "refund", txt "billing", txt "charge",
   txt "legal", txt "lawsuit", txt "attorney", txt "liability", txt "indemnify",
   txt "project", txt "service", txt "product", txt "feature", txt "specification", txt "scope",
   txt "attach", txt "attachment", txt "document", txt "file"]

/-- `KeywordAnalyzer.CATEGORIES` in source (insertion) order. -/
def CATEGORIES : List (Str × List Str) :=
  [(txt "finance", [txt "invoice", txt "payment", txt "quote", txt "pricing", txt "cost",
      txt "budget", txt "financial", txt "billing"]),
   (txt "legal", [txt "contract", txt "agreement", txt "legal", txt "nda", txt "lawsuit",
      txt "attorney", txt "compliance"]),
   (txt "hr", [txt "hiring", txt "firing", txt "recruit", txt "interview", txt "salary",
      txt "employment", txt "resume", txt "candidate"]),
   (txt "project", [txt "project", txt "deliverable", txt "milestone", txt "deadline",
      txt "scope", txt "timeline", txt "release"]),
   (txt "meeting", [txt "meeting", txt "call", txt "schedule", txt "appointment",
      txt "calendar", txt "zoom", txt "teams"]),
   (txt "support", [txt "help", txt "support", txt "issue", txt "problem", txt "error",
      txt "bug", txt "fix", txt "troubleshoot"]),
   (txt "sales", [txt "sales", txt "lead", txt "prospect", txt "customer", txt "client",
      txt "opportunity", txt "deal"]),
   (txt "marketing", [txt "marketing", txt "campaign", txt "promotion", txt "advertisement",
      txt "social media"]),
   (txt "operations", [txt "operations", txt "process", txt "workflow", txt "procedure",
      txt "logistics", txt "inventory"]),
   (txt "technical", [txt "technical", txt "development", txt "engineering", txt "api",
      txt "integration", txt "code"]),
   (txt "communication", [txt "update", txt "announcement", txt "newsletter",
      txt "notification", txt "fyi", txt "information"])]

/-- `KeywordAnalyzer.SAFE_PATTERNS`. -/
def SAFE_PATTERNS : List Str :=
  [txt "thank you", txt "thanks", txt "appreciate", txt "acknowledged", txt "received",
   txt "got it", txt "noted", txt "understood", txt "confirm receipt", txt "well received"]

/-- Result record mirroring the `KeywordAnalysis` dataclass. The source also
reads an undeclared attribute `conversation_context` in one caller
(`EmailPlanner._create_review_plan`); that access is modelled as a raised
`AttributeError` there, because this dataclass has no such field. -/
structure KeywordAnalysis where
  needs_reply : Bool
  reason : Str
  priority : Nat
  priority_label : Str
  category : Str
  subcategory : Option Str
  suggested_reply : Option Str
  risk_level : Str
  risk_score : Nat
  auto_approve : Bool
  requires_human_review : Bool
  risk_factors : List Str
  action_items : List Str
  business_terms : List Str
  confidence : ℚ
deriving DecidableEq

/-- `label_map.get(max_score, 'normal')` of `_calculate_priority`. -/
def priority_label_map (n : Nat) : Str :=
  if n == 5 then txt "urgent"
  else if n == 4 then txt "high"
  else if n == 3 then txt "medium"
  else if n == 2 then txt "normal"
  else if n == 1 then txt "low"
  else txt "normal"

/-- `KeywordAnalyzer._calculate_priority`: max matched keyword weight, urgency
boost (cap 5), minimum 1; returns (score, label, matched keywords). The
company-keyword pass is a no-op because the handbook keyword set is empty. -/
def calculate_priority (text : Str) : Nat × Str × List Str :=
  let max0 := PRIORITY_KEYWORDS.foldl
    (fun acc kw => if pyIn kw.1 text && acc < kw.2 then kw.2 else acc) 0
  let matched := (PRIORITY_KEYWORDS.filter (fun kw => pyIn kw.1 text)).map (·.1)
  let boosted :=
    if pyIn (txt "!") text || pyIn (txt "urgent") text || pyIn (txt "asap") text
        || pyIn (txt "immediately") text then
      min 5 (max0 + 1)
    else max0
  let score := max 1 boosted
  (score, priority_label_map score, matched)

/-- `KeywordAnalyzer._detect_category`: score each category by keyword hit
count; pick the first category (in table order) with the strictly largest
positive score, mirroring Python `max` over the insertion-ordered dict;
default `general` with confidence 0.5. Confidence `min(1, hits*0.3)` is
modelled in exact rationals. -/
def detect_category (text : Str) : Str × ℚ :=
  let scores := CATEGORIES.map (fun c => (c.1, (c.2.filter (fun kw => pyIn kw text)).length))
  let best := scores.foldl
    (fun acc s => if s.2 > acc.2 then s else acc) (txt "", 0)
  if best.2 == 0 then (txt "general", 1/2)
  else (best.1, min 1 ((best.2 : ℚ) * (3/10)))

/-- `KeywordAnalyzer._assess_risk`: summed risk keyword weights plus 15 per
business-critical term; level thresholds applied to the uncapped total,
then the score is capped at 100. -/
def assess_risk (text : Str) : Str × Nat × List Str :=
  let kwHits := RISK_KEYWORDS.filter (fun kw => pyIn kw.1 text)
  let bcHits := BUSINESS_CRITICAL.filter (fun t => pyIn t text)
  let total := kwHits.foldl (fun acc kw => acc + kw.2) 0 + 15 * bcHits.length
  let factors := kwHits.map (fun kw => txt "\x27" ++ kw.1 ++ txt "\x27 detected")
    ++ bcHits.map (fun t => txt "Business-critical: " ++ t)
  let level :=
    if total ≥ 75 then txt "critical"
    else if total ≥ 50 then txt "high"
    else if total ≥ 25 then txt "medium"
    else if total ≥ 10 then txt "low"
    else txt "safe"
  (level, min 100 total, factors)

/-- The `ACTION_PATTERNS` of the analyzer, each of shape
`literal [s]? \s+ (\w+)`; the optional `s` is only present for
`require[s]?`. -/
def ACTION_PATTERNS : List (Str × Bool) :=
  [(txt "please", false), (txt "can you", false), (txt "could you", false),
   (txt "would you", false), (txt "need you to", false), (txt "require", true),
   (txt "looking for", false), (txt "i want", false), (txt "interested in", false)]

/-- Attempt to match one action pattern at the head of `s`, mirroring the
regex `lit[s]?\s+(\w+)` with greedy-then-backtrack handling of the optional
`s`. Returns the whole match (`group(0)`) and the rest of the text. -/
def tryMatchAt (lit : Str) (optS : Bool) (s : Str) : Option (Str × Str) :=
  if lit.isPrefixOf s then
    let afterLit := s.drop lit.length
    let attempt := fun (pre : Str) (r : Str) =>
      let ws := r.takeWhile isSpaceC
      let afterWs := r.drop ws.length
      let w := afterWs.takeWhile isWordC
      if ws.length ≥ 1 && w.length ≥ 1 then
        some (lit ++ pre ++ ws ++ w, afterWs.drop w.length)
      else none
    match afterLit with
    | 's' :: restS =>
      if optS then
        match attempt (txt "s") restS with
        | some m => some m
        | none => attempt [] afterLit
      else attempt [] afterLit
    | _ => attempt [] afterLit
  else none

/-- Non-overlapping left-to-right scan of one pattern over the text
(`re.finditer`), fuel-bounded by the text length (each step consumes at
least one character). -/
def scanPattern (lit : Str) (optS : Bool) : Nat → Str → List Str
  | 0, _ => []
  | _ + 1, [] => []
  | fuel + 1, c :: rest =>
    match tryMatchAt lit optS (c :: rest) with
    | some (m, remaining) => m :: scanPattern lit optS fuel remaining
    | none => scanPattern lit optS fuel rest

/-- Python `re.split(r'[.!?]', text)`: split at every `.`, `!` or `?`,
keeping empty pieces. -/
def splitSentences : Str → List Str
  | [] => [[]]
  | c :: rest =>
    if c == '.' || c == '!' || c == '?' then
      [] :: splitSentences rest
    else
      match splitSentences rest with
      | [] => [[c]]
      | piece :: pieces => (c :: piece) :: pieces

/-- `KeywordAnalyzer._extract_action_items`: pattern matches longer than 5
characters, then sentences containing an action verb and longer than 10
characters after stripping; deduplicated and capped at 5. Python builds the
deduplicated list via `list(set(...))` whose order is unspecified; first
occurrence order is used here (downstream consumers only inspect
membership, emptiness and length). -/
def extract_action_items (text : Str) : List Str :=
  let phase1 := ACTION_PATTERNS.foldl
    (fun acc pat => acc ++ (scanPattern pat.1 pat.2 text.length text).filter
      (fun m => m.length > 5)) []
  let action_verbs := [txt "please", txt "can you", txt "could you", txt "would you",
    txt "need to", txt "should"]
  let phase2 := ((splitSentences text).filter
      (fun sent => action_verbs.any (fun v => pyIn v sent))).map stripS
    |>.filter (fun sent => sent.length > 10)
  ((phase1 ++ phase2).eraseDups).take 5

/-- `KeywordAnalyzer._extract_business_terms`. -/
def extract_business_terms (text : Str) : List Str :=
  BUSINESS_CRITICAL.filter (fun t => pyIn t text)

/-- `KeywordAnalyzer._needs_reply`. -/
def needs_reply_fn (text : Str) (action_items : List Str) : Bool :=
  if pyIn (txt "?") text then true
  else if !action_items.isEmpty then true
  else if [txt "please", txt "can you", txt "could you", txt "would you",
      txt "need", txt "help"].any (fun p => pyIn p text) then true
  else if [txt "fw:", txt "fwd:", txt "re:"].any (fun p => pyIn p text) then true
  else false

/-- The `is_safe_pattern` test of `_determine_approval`: some safe
acknowledgment pattern occurs in the text. -/
def is_safe_pattern (text : Str) : Bool :=
  SAFE_PATTERNS.any (fun p => pyIn p text)

/-- `KeywordAnalyzer._determine_approval`: returns
`(auto_approve, requires_human_review)`. -/
def determine_approval (text : Str) (risk_score : Nat) (business_terms : List Str)
    (action_items : List Str) (conversation_history : Option (List Unit)) :
    Bool × Bool :=
  if risk_score ≥ 50 then (false, true)
  else if !business_terms.isEmpty then (false, true)
  else if action_items.length > 2 then (false, true)
  else if (match conversation_history with
           | some h => decide (h.length > 3)
           | none => false) then (false, true)
  else if is_safe_pattern text && decide (risk_score < 25) then (true, false)
  else if decide (action_items.length ≤ 1) && decide (risk_score < 25) then (true, false)
  else (false, true)

/-- Python `str.capitalize()`: first character upper-cased, the rest
lower-cased. -/
def capitalizeS : Str → Str
  | [] => []
  | c :: rest => c.toUpper :: lowerS rest

/-- `sender.split('<')[0]` of `_generate_reply`. -/
def beforeLt : Str → Str
  | [] => []
  | c :: rest => if c == '<' then [] else c :: beforeLt rest

/-- `KeywordAnalyzer._generate_reply`: templated reply by safe-pattern match
or category, `none` when no reply is needed. -/
def generate_reply (sender subject : Str) (category : Str)
    (action_items : List Str) (needsReply : Bool) : Option Str :=
  if !needsReply then none
  else
    let capName := capitalizeS (stripS (beforeLt sender))
    let sender_name := if capName.isEmpty then txt "there" else capName
    let combinedR := lowerS subject ++ txt " " ++ lowerS (joinWith (txt " ") action_items)
    if SAFE_PATTERNS.any (fun p => pyIn p combinedR) then
      some (txt "Hi " ++ sender_name ++ txt ",\n\nThank you for your message. I\x27ve received it and appreciate you reaching out.\n\nBest regards")
    else if category == txt "finance" then
      some (txt "Hi " ++ sender_name ++ txt ",\n\nThank you for your email regarding financial matters. I\x27ve received your message and will review the details shortly. I\x27ll get back to you as soon as possible.\n\nBest regards")
    else if category == txt "legal" then
      some (txt "Hi " ++ sender_name ++ txt ",\n\nI\x27ve received your message regarding legal matters. This requires careful review, and I\x27ll get back to you shortly after I\x27ve had a chance to assess the details.\n\nBest regards")
    else if category == txt "hr" then
      some (txt "Hi " ++ sender_name ++ txt ",\n\nThank you for reaching out regarding HR matters. I\x27ve received your message and will review it promptly. I\x27ll be in touch soon with any follow-up.\n\nBest regards")
    else if category == txt "project" then
      some (txt "Hi " ++ sender_name ++ txt ",\n\nThank you for the update regarding the project. I\x27ve received your message and will review the details. I\x27ll follow up with you shortly if any action is needed on my part.\n\nBest regards")
    else if category == txt "meeting" then
      some (txt "Hi " ++ sender_name ++ txt ",\n\nThank you for reaching out. I\x27d be happy to schedule a meeting. Could you please share a few time slots that work well for you? I\x27ll do my best to accommodate.\n\nBest regards")
    else if category == txt "support" then
      some (txt "Hi " ++ sender_name ++ txt ",\n\nThank you for reaching out for support. I\x27ve received your message and understand you need assistance with this matter. I\x27ll look into it and get back to you shortly.\n\nBest regards")
    else
      some (txt "Hi " ++ sender_name ++ txt ",\n\nThank you for your email. I\x27ve received your message and will review it shortly. I\x27ll get back to you as soon as possible.\n\nBest regards")

/-- `KeywordAnalyzer._calculate_confidence` in exact rationals. -/
def calculate_confidence (priority_score : Nat) (risk_score : Nat)
    (category_conf : ℚ) : ℚ :=
  if priority_score ≥ 4 || risk_score ≥ 50 then min 1 (category_conf + 3/10)
  else if category_conf > 7/10 then 4/5
  else 3/5

/-- Combined normalized text of `KeywordAnalyzer.analyze`:
`f"{subject.lower().strip()} {body.lower().strip()}"`. -/
def combinedText (subject body : Str) : Str :=
  stripS (lowerS subject) ++ txt " " ++ stripS (lowerS body)

/-- `KeywordAnalyzer.analyze`. -/
def analyze (sender subject body : Str)
    (conversation_history : Option (List Unit) := none) : KeywordAnalysis :=
  let combined := combinedText subject body
  let priority_info := calculate_priority combined
  let category_info := detect_category combined
  let risk_info := assess_risk combined
  let action_items := extract_action_items combined
  let business_terms := extract_business_terms combined
  let needsReply := needs_reply_fn combined action_items
  let approval := determine_approval combined risk_info.2.1 business_terms
    action_items conversation_history
  let suggested := generate_reply sender subject category_info.1 action_items needsReply
  let confidence := calculate_confidence priority_info.1 risk_info.2.1 category_info.2
  let reason_parts :=
    (if !priority_info.2.2.isEmpty then [txt "Priority: " ++ priority_info.2.1] else [])
    ++ (if category_info.1 ≠ txt "general" then [txt "Category: " ++ category_info.1] else [])
    ++ (if !risk_info.2.2.isEmpty then [natStr risk_info.2.2.length ++ txt " risk factors"] else [])
    ++ (if !action_items.isEmpty then [natStr action_items.length ++ txt " action items"] else [])
  let reason :=
    if reason_parts.isEmpty then txt "General message analysis"
    else joinWith (txt " | ") reason_parts
  { needs_reply := needsReply
    reason := reason
    priority := priority_info.1
    priority_label := priority_info.2.1
    category := category_info.1
    subcategory := none
    suggested_reply := suggested
    risk_level := risk_info.1
    risk_score := risk_info.2.1
    auto_approve := approval.1
    requires_human_review := approval.2
    risk_factors := risk_info.2.2
    action_items := action_items
    business_terms := business_terms
    confidence := confidence }

/-! ## EmailPlanner (`skills/email_planner.py`)

The vault is modelled as explicit lists of files. An email file in
`Needs_Action/` is modelled already parsed: `_parse_email_file` splits the
frontmatter into a metadata dict and a body, and the planner only ever reads
`metadata.get('from')`, `metadata.get('subject')` and `metadata.get('date')`,
which are the record fields below.
-/

/-- An email file in `Needs_Action/` (pre-parsed, see section comment). -/
structure EmailFile where
  stem : Str
  fromAddr : Str
  subject : Str
  date : Str
  body : Str
deriving DecidableEq

/-- External collaborators and clock of the planner: whether `EmailSender`
loaded, the result of `EmailSender.send_email`, and the formatted
`datetime.now()` strings. -/
structure PlannerCfg where
  sender_available : Bool
  send_ok : Str → Str → Str → Bool
  ts : Str
  ts_iso : Str
  ts_hm : Str

/-- Vault state touched by `EmailPlanner`: the `Needs_Action/` folder, the
stems moved to `Done/`, the plan files written to `Plans/`, the
`Logs/Auto_Sent/` entries, the emails annotated by `add_note`, the attempted
sends, and the processed-id cache (`.email_planner_cache.json`). -/
structure PlannerState where
  needs_action : List EmailFile
  done : List Str
  plans : List (Str × List Str)
  auto_sent_log : List Str
  notes : List Str
  sent_attempts : List (Str × Str × Str)
  cache : List Str
deriving DecidableEq

/-- The `action` value of a `plan_all_emails` result entry. -/
inductive PlanActionKind
  | archived
  | auto_sent
  | created_plan
  | err
deriving DecidableEq

/-- One entry of the list returned by `plan_all_emails` (fields not inspected
by any claim, such as the echoed sender and risk level, are omitted). -/
structure PlanResult where
  email_file : Str
  action : PlanActionKind
  success : Option Bool
  plan_id : Option Str
  error_msg : Option Str
deriving DecidableEq

/-- `EmailPlanner._archive_email`: patch status metadata and move the email
from `Needs_Action/` to `Done/` (the metadata patch travels with the move). -/
def archive_email (st : PlannerState) (f : EmailFile) : PlannerState :=
  { st with
    needs_action := st.needs_action.filter (fun g => !(g.stem == f.stem))
    done := st.done ++ [f.stem] }

/-- `EmailPlanner._auto_send_email`: refuse when the sender is unavailable or
no (nonempty) reply was generated; otherwise attempt the send, and on success
log it, mark the original email and move it to `Done/`. -/
def auto_send_email (cfg : PlannerCfg) (st : PlannerState) (f : EmailFile)
    (a : KeywordAnalysis) : PlannerState × Bool :=
  let replyBad := match a.suggested_reply with
    | none => true
    | some r => r.isEmpty
  if !cfg.sender_available || replyBad then (st, false)
  else
    match a.suggested_reply with
    | none => (st, false)
    | some reply =>
      let recipient := f.fromAddr
      let subj := if !f.subject.isEmpty && !startsWithS f.subject (txt "Re:")
        then txt "Re: " ++ f.subject else f.subject
      let st1 := { st with sent_attempts := st.sent_attempts ++ [(recipient, subj, reply)] }
      if cfg.send_ok recipient subj reply then
        ({ st1 with
            auto_sent_log := st1.auto_sent_log ++ [f.stem ++ txt ".md"]
            needs_action := st1.needs_action.filter (fun g => !(g.stem == f.stem))
            done := st1.done ++ [f.stem] }, true)
      else (st1, false)

/-- `email_filename.rsplit('.md', 1)[0] if email_filename.endswith('.md') else
email_filename` of `_create_review_plan`. -/
def clean_name (email_filename : Str) : Str :=
  if (txt ".md").isSuffixOf email_filename then
    email_filename.take (email_filename.length - 3)
  else email_filename

/-- Python `str.upper()`. -/
def upperS (l : Str) : Str := l.map Char.toUpper

/-- Priority emoji map of `_create_review_plan` (default 🟡; note the labels
`medium` and `urgent` produced by the analyzer are not keys and fall to the
default). -/
def priority_emoji (label : Str) : Str :=
  if label == txt "critical" then txt "🔴"
  else if label == txt "high" then txt "🟠"
  else if label == txt "normal" then txt "🟡"
  else if label == txt "low" then txt "🟢"
  else txt "🟡"

/-- Risk emoji map of `_create_review_plan` (default 🟡). -/
def risk_emoji (level : Str) : Str :=
  if level == txt "safe" then txt "✅"
  else if level == txt "low" then txt "🟢"
  else if level == txt "medium" then txt "🟡"
  else if level == txt "high" then txt "🔴"
  else txt "🟡"

/-- The plan content built by `_create_review_plan` up to the point of the
`analysis.conversation_context` access (source lines 324-361), split at
newlines into a list of lines. -/
def review_plan_header (plan_id email_filename : Str) (a : KeywordAnalysis)
    (metaFrom metaSubject : Str) (created_iso created_hm : Str) : List Str :=
  [txt "---",
   txt "type: email_plan",
   txt "plan_id: " ++ plan_id,
   txt "email_file: " ++ email_filename,
   txt "priority: " ++ a.priority_label,
   txt "risk_level: " ++ a.risk_level,
   txt "auto_approve: " ++ (if a.auto_approve then txt "true" else txt "false"),
   txt "status: pending_approval",
   txt "created: " ++ created_iso,
   txt "category: " ++ a.category,
   txt "---",
   txt "",
   txt "# Email Response Plan: " ++ metaSubject,
   txt "",
   txt "**From:** " ++ metaFrom,
   txt "**Priority:** " ++ priority_emoji a.priority_label ++ txt " " ++ upperS a.priority_label,
   txt "**Risk Level:** " ++ risk_emoji a.risk_level ++ txt " " ++ upperS a.risk_level,
   txt "**Category:** " ++ capitalizeS a.category,
   txt "**Created:** " ++ created_hm,
   txt "",
   txt "---",
   txt "",
   txt "## AI Analysis",
   txt "",
   txt "**Needs Reply:** " ++ (if a.needs_reply then txt "✅ Yes" else txt "❌ No"),
   txt "",
   txt "**Reason:** " ++ a.reason,
   txt "",
   txt "**Auto-Approve Decision:** " ++
     (if a.auto_approve then txt "✅ Auto-approved (sent directly)"
      else txt "⏳ Pending human review"),
   txt ""]
  ++ (if !a.risk_factors.isEmpty then
        [txt "**Risk Factors Detected:**"]
        ++ a.risk_factors.map (fun fac => txt "- ⚠️ " ++ fac)
        ++ [txt ""]
      else [])

/-- The exception text of the `analysis.conversation_context` access in
`_create_review_plan` (line 362). -/
def conversation_context_error : Str :=
  txt "AttributeError: \x27KeywordAnalysis\x27 object has no attribute \x27conversation_context\x27"

/-- `EmailPlanner._create_review_plan`. After building the header above, the
source reads `analysis.conversation_context` (line 362); the
`KeywordAnalysis` dataclass declares no such attribute, so every call raises
`AttributeError` before the plan file is written, modelled as `Except.error`. -/
def create_review_plan (cfg : PlannerCfg) (email_filename : Str)
    (a : KeywordAnalysis) (metaFrom metaSubject : Str) :
    Except Str (Str × List Str) :=
  let plan_id := txt "PLAN_" ++ cfg.ts ++ txt "_" ++ clean_name email_filename
  let _header := review_plan_header plan_id email_filename a metaFrom metaSubject
    cfg.ts_iso cfg.ts_hm
  Except.error conversation_context_error

/-- The branch of the `plan_all_emails` loop body taken after classification:
archive / auto-send / attempt plan creation, with the stem joining the cache
after the branch unless an exception interrupted it. -/
def plan_branch (cfg : PlannerCfg) (st : PlannerState) (f : EmailFile)
    (a : KeywordAnalysis) : PlannerState × Option PlanResult :=
  if !a.needs_reply then
    ({ archive_email st f with cache := (archive_email st f).cache ++ [f.stem] },
      some ⟨f.stem ++ txt ".md", .archived, none, none, none⟩)
  else if a.auto_approve then
    ({ (auto_send_email cfg st f a).1 with
        cache := (auto_send_email cfg st f a).1.cache ++ [f.stem] },
      some ⟨f.stem ++ txt ".md", .auto_sent, some (auto_send_email cfg st f a).2,
        none, none⟩)
  else
    match create_review_plan cfg (f.stem ++ txt ".md") a f.fromAddr f.subject with
    | .ok res =>
      ({ st with
          plans := st.plans ++ [res]
          notes := st.notes ++ [f.stem ++ txt ".md"]
          cache := st.cache ++ [f.stem] },
        some ⟨f.stem ++ txt ".md", .created_plan, none, some res.1, none⟩)
    | .error e =>
      (st, some ⟨f.stem ++ txt ".md", .err, none, none, some e⟩)

/-- The body of the `for email_file in email_files` loop of
`EmailPlanner.plan_all_emails` for one email file: skip cached stems,
otherwise classify and take the matching branch. -/
def plan_step (cfg : PlannerCfg) (st : PlannerState) (f : EmailFile) :
    PlannerState × Option PlanResult :=
  if st.cache.contains f.stem then (st, none)
  else plan_branch cfg st f (analyze f.fromAddr f.subject f.body)

/-- The glob snapshot of `plan_all_emails`: `EMAIL*.md` plus `EMAIL - *.md`
(the latter re-listing files already matched by the former) and the same two
patterns for `WHATSAPP`. -/
def planner_glob (st : PlannerState) : List EmailFile :=
  st.needs_action.filter (fun f => startsWithS f.stem (txt "EMAIL"))
  ++ st.needs_action.filter (fun f => startsWithS f.stem (txt "EMAIL - "))
  ++ st.needs_action.filter (fun f => startsWithS f.stem (txt "WHATSAPP"))
  ++ st.needs_action.filter (fun f => startsWithS f.stem (txt "WHATSAPP - "))

/-- `EmailPlanner.plan_all_emails`: snapshot the folder, process each file,
return the final state and the result list. -/
def plan_all_emails (cfg : PlannerCfg) (st : PlannerState) :
    PlannerState × List PlanResult :=
  (planner_glob st).foldl
    (fun acc f =>
      let stepped := plan_step cfg acc.1 f
      (stepped.1, acc.2 ++ stepped.2.toList))
    (st, [])

/-! ## ApprovedPlanExecutor (`skills/approved_plan_executor.py`)

Plan and email files are modelled as lists of lines. The executor's
field-extraction regexes `key:\s*([^\n]+)` are modelled at line granularity:
the literal `key:` cannot span a newline, so a match exists only on a line
containing `key:`; the modelled value is the stripped remainder of the first
such line (the regex's `\s*` could in principle run past the newline when the
remainder is blank; no content considered here has that shape, every field
line carries its value).
-/

/-- Remainder of `l` after the first occurrence of `key`, if any. -/
def afterSub (key : Str) : Str → Option Str
  | [] => if key.isEmpty then some [] else none
  | c :: rest =>
    if key.isPrefixOf (c :: rest) then some ((c :: rest).drop key.length)
    else afterSub key rest

/-- Model of `re.search(r'key\s*([^\n]+)', content)` followed by `.strip()`
on the captured group, at line granularity (see section comment). -/
def search_val (key : Str) : List Str → Option Str
  | [] => none
  | l :: rest =>
    match afterSub key l with
    | some v =>
      let v' := stripS v
      if v'.isEmpty then none else some v'
    | none => search_val key rest

/-- Python `str.replace(pat, rep)` (all occurrences), fuel-bounded by the
text length. -/
def replaceSub (pat rep : Str) : Nat → Str → Str
  | 0, s => s
  | _ + 1, [] => []
  | fuel + 1, c :: rest =>
    if !pat.isEmpty && pat.isPrefixOf (c :: rest) then
      rep ++ replaceSub pat rep fuel ((c :: rest).drop pat.length)
    else c :: replaceSub pat rep fuel rest

/-- Model of `re.search(r'^# (.+)$', content, re.MULTILINE)`: the first line
starting with `# ` followed by at least one character. -/
def title_of (lines : List Str) : Option Str :=
  match lines.find? (fun l => startsWithS l (txt "# ") && !(l.drop 2).isEmpty) with
  | some l => some (l.drop 2)
  | none => none

/-- Lines following the first line that consists of `marker` (plus optional
surrounding whitespace); `none` when no line contains the marker. -/
def lines_after_marker (marker : Str) : List Str → Option (List Str)
  | [] => none
  | l :: rest =>
    if pyIn marker l then some rest else lines_after_marker marker rest

/-- Fallback reply extraction `## Suggested Reply\s*(.*?)\s*---` applied to
the lines after the marker: capture up to the first line containing `---`. -/
def extract_reply_fallback (rest : List Str) : Option Str :=
  if rest.any (fun l => pyIn (txt "---") l) then
    some (stripS (joinWith (txt "\n")
      (rest.takeWhile (fun l => !(pyIn (txt "---") l)))))
  else none

/-- Reply extraction of `_execute_plan`: first the fenced form
`## Suggested Reply\s*```\s*(.*?)\s*```` (code block after the heading), then
the fallback up to `---`. -/
def extract_reply (lines : List Str) : Option Str :=
  match lines_after_marker (txt "## Suggested Reply") lines with
  | none => none
  | some rest =>
    let restNB := rest.dropWhile (fun l => (stripS l).isEmpty)
    match restNB with
    | fence :: afterFence =>
      if stripS fence == txt "```" && afterFence.any (fun l => pyIn (txt "```") l) then
        some (stripS (joinWith (txt "\n")
          (afterFence.takeWhile (fun l => !(pyIn (txt "```") l)))))
      else extract_reply_fallback rest
    | [] => extract_reply_fallback rest

/-- Model of `re.match(r'^---\n(.*?)\n---\n', content, re.DOTALL)` being
truthy: first line is `---` and some later line is `---` again. -/
def has_frontmatter (lines : List Str) : Bool :=
  match lines with
  | l :: rest => l == txt "---" && rest.any (fun m => m == txt "---")
  | [] => false

/-- A plan file in `Approved/`: `id` is the filename stem (`plan_file.stem`). -/
structure PlanFile where
  id : Str
  lines : List Str
deriving DecidableEq

/-- External collaborators of the executor: `EmailSender` availability and
send outcome. -/
structure ExecCfg where
  sender_available : Bool
  send_ok : Str → Str → Str → Bool

/-- Vault state touched by `ApprovedPlanExecutor`: the `Approved/` folder,
the stems written to `Done/`, the `Needs_Action/` email files, the filenames
moved to `Inbox/`, the processed-plan id set
(`.approved_plans_executed.json`, in-memory authority within the executor
instance) and the attempted sends. -/
structure ExecState where
  approved : List PlanFile
  done : List Str
  needs_action_files : List (Str × List Str)
  inbox : List Str
  processed : List Str
  sent_attempts : List (Str × Str × Str)
deriving DecidableEq

/-- `_move_plan_to_done`: only a plan with parseable frontmatter is patched
with execution metadata, written to `Done/` and removed from `Approved/`. -/
def move_plan_to_done (st : ExecState) (p : PlanFile) : ExecState :=
  if has_frontmatter p.lines then
    { st with
      done := st.done ++ [p.id]
      approved := st.approved.filter (fun q => !(q.id == p.id)) }
  else st

/-- `_move_email_to_inbox`: move the linked email from `Needs_Action/` to
`Inbox/` when it exists and has parseable frontmatter. -/
def move_email_to_inbox (st : ExecState) (email_filename : Str) : ExecState :=
  match st.needs_action_files.find? (fun e => e.1 == email_filename) with
  | none => st
  | some e =>
    if has_frontmatter e.2 then
      { st with
        inbox := st.inbox ++ [email_filename]
        needs_action_files := st.needs_action_files.filter
          (fun g => !(g.1 == email_filename)) }
    else st

/-- `ApprovedPlanExecutor._execute_plan`: extract `email_file:`/`from:` (both
required), `subject:` with title fallback, the suggested reply, then send;
on success move the plan to `Done/` and the linked email to `Inbox/`. -/
def execute_plan (cfg : ExecCfg) (st : ExecState) (p : PlanFile) :
    ExecState × Bool :=
  match search_val (txt "email_file:") p.lines, search_val (txt "from:") p.lines with
  | some email_filename, some recipient =>
    let subj0 := match search_val (txt "subject:") p.lines with
      | some s => s
      | none =>
        match title_of p.lines with
        | some t => stripS (replaceSub (txt "Email Response Plan: ") [] t.length t)
        | none => txt "Re: (No Subject)"
    let subj := if !subj0.isEmpty && !startsWithS subj0 (txt "Re:")
      then txt "Re: " ++ subj0 else subj0
    match extract_reply p.lines with
    | none => (st, false)
    | some reply =>
      if !cfg.sender_available then (st, false)
      else
        let st1 := { st with sent_attempts := st.sent_attempts ++ [(recipient, subj, reply)] }
        if cfg.send_ok recipient subj reply then
          (move_email_to_inbox (move_plan_to_done st1 p) email_filename, true)
        else (st1, false)
  | _, _ => (st, false)

/-- One iteration of the `check_and_execute` loop: skip processed ids,
otherwise execute and mark processed whether or not execution succeeded
("even if failed, to avoid infinite retry" per the source comment). -/
def exec_step (cfg : ExecCfg) (acc : ExecState × Nat) (p : PlanFile) :
    ExecState × Nat :=
  if acc.1.processed.contains p.id then acc
  else
    let r := execute_plan cfg acc.1 p
    ({ r.1 with processed := r.1.processed ++ [p.id] },
      acc.2 + (if r.2 then 1 else 0))

/-- `ApprovedPlanExecutor.check_and_execute`: snapshot `Approved/PLAN_*.md`,
process each, return final state and executed count. (The JSON persistence
of the processed set happens only when the count is positive; the in-memory
set modelled here is what the same executor instance consults.) -/
def check_and_execute (cfg : ExecCfg) (st : ExecState) : ExecState × Nat :=
  (st.approved.filter (fun p => startsWithS p.id (txt "PLAN_"))).foldl
    (exec_step cfg) (st, 0)

/-! ## FailureManager (`Watchers/failure_manager.py`)

Per-worker health state machine. The manager keeps a dict of
`WatcherHealth` records keyed by name; every operation acts on one record,
so the model works on a single record (claims C7-C9 are per-worker).
Timestamps are naturals (seconds); alert and error-log file writes are
modelled by the returned "alerted" flag.
-/

/-- `WatcherStatus` enum. -/
inductive WStatus
  | healthy
  | degraded
  | failed
  | recovering
deriving DecidableEq

/-- `WatcherHealth` dataclass. -/
structure WatcherHealth where
  status : WStatus
  last_heartbeat : Option Nat
  last_successful_check : Option Nat
  error_count : Nat
  consecutive_failures : Nat
  restart_attempts : Nat
  max_restart_attempts : Nat
  last_error : Option Str
  recovery_backoff_seconds : Nat
  is_running : Bool
deriving DecidableEq

/-- `FailureManager.register_watcher`: fresh record with the manager's
`max_restart_attempts` and the dataclass defaults. -/
def register_watcher (max_restart_attempts now : Nat) : WatcherHealth :=
  { status := .healthy
    last_heartbeat := some now
    last_successful_check := some now
    error_count := 0
    consecutive_failures := 0
    restart_attempts := 0
    max_restart_attempts := max_restart_attempts
    last_error := none
    recovery_backoff_seconds := 30
    is_running := true }

/-- `FailureManager.update_heartbeat`; the returned flag is whether
`_create_alert` ran (consecutive failures reached the alert threshold).
After the unhealthy increment the count is at least 1, so the
`>= 3 / >= 1` status ladder collapses to failed-or-degraded. -/
def update_heartbeat (alert_threshold now : Nat) (h : WatcherHealth)
    (is_healthy : Bool) (error : Option Str) : WatcherHealth × Bool :=
  let h0 := { h with last_heartbeat := some now }
  if is_healthy then
    ({ h0 with
        status := .healthy
        last_successful_check := some now
        consecutive_failures := 0
        last_error := none
        is_running := true }, false)
  else
    let cf := h0.consecutive_failures + 1
    ({ h0 with
        consecutive_failures := cf
        error_count := h0.error_count + 1
        last_error := error
        status := if cf ≥ 3 then .failed else .degraded },
      decide (cf ≥ alert_threshold))

/-- Result of `_attempt_restart`: the new record, whether it escalated to an
alert, and the computed exponential backoff of a sanctioned attempt. -/
structure RestartOutcome where
  health : WatcherHealth
  alerted : Bool
  backoff : Option Nat
deriving DecidableEq

/-- `FailureManager._attempt_restart`: at the attempt cap escalate to an
alert and stop; otherwise increment attempts, set Recovering and compute
`backoff = recovery_backoff_seconds * 2 ** (restart_attempts - 1)`. -/
def attempt_restart (h : WatcherHealth) : RestartOutcome :=
  if h.restart_attempts ≥ h.max_restart_attempts then
    ⟨h, true, none⟩
  else
    let h1 := { h with restart_attempts := h.restart_attempts + 1, status := .recovering }
    ⟨h1, false, some (h1.recovery_backoff_seconds * 2 ^ (h1.restart_attempts - 1))⟩

/-- The stale-heartbeat marking inside `_check_all_watchers`: status Failed,
not running, one more consecutive failure. -/
def mark_failed_stale (h : WatcherHealth) : WatcherHealth :=
  { h with
    status := .failed
    is_running := false
    consecutive_failures := h.consecutive_failures + 1 }

/-- `FailureManager._check_all_watchers` restricted to one worker: a running
worker whose heartbeat is older than `3 * health_check_interval` is marked
failed and, when still under the alert threshold, a restart is attempted. -/
def check_watcher (health_check_interval alert_threshold now : Nat)
    (h : WatcherHealth) : RestartOutcome :=
  match h.last_heartbeat with
  | none => ⟨h, false, none⟩
  | some hb =>
    if decide (now - hb > 3 * health_check_interval) && h.is_running then
      let h1 := mark_failed_stale h
      if h1.consecutive_failures < alert_threshold then attempt_restart h1
      else ⟨h1, false, none⟩
    else ⟨h, false, none⟩

/-- An uninterrupted streak of `n` unhealthy heartbeat updates, returning the
final record and how many alerts were emitted during the streak. -/
def run_unhealthy (alert_threshold : Nat) : WatcherHealth → Nat → WatcherHealth × Nat
  | h, 0 => (h, 0)
  | h, n + 1 =>
    let u := update_heartbeat alert_threshold 0 h false none
    let rest := run_unhealthy alert_threshold u.1 n
    (rest.1, (if u.2 then 1 else 0) + rest.2)

/-! ## Concrete fixtures -/

/-- A send capability that always fails (transient failure). -/
def send_fail : Str → Str → Str → Bool := fun _ _ _ => false

/-- A send capability that always succeeds. -/
def send_pass : Str → Str → Str → Bool := fun _ _ _ => true

/-- Planner configuration with an available sender whose sends fail. -/
def planner_cfg_fail : PlannerCfg :=
  ⟨true, send_fail, txt "20250101_120000", txt "2025-01-01T12:00:00",
    txt "2025-01-01 12:00"⟩

/-- An email whose classification is needs-reply and auto-approve
("got it?": question mark, safe pattern, zero risk). -/
def email_got_it : EmailFile :=
  ⟨txt "EMAIL_1", txt "alice@example.com", txt "", txt "", txt "got it?"⟩

/-- Needs-Action folder holding only `email_got_it`, nothing processed. -/
def planner_state_1 : PlannerState := ⟨[email_got_it], [], [], [], [], [], []⟩

/-- Same folder with `EMAIL_1` already in the processed cache. -/
def planner_state_1c : PlannerState :=
  ⟨[email_got_it], [], [], [], [], [], [txt "EMAIL_1"]⟩

/-- An email whose classification needs a review plan ("Can you pay the
invoice?": needs reply, business-critical terms `invoice` and `pay`). -/
def email_invoice : EmailFile :=
  ⟨txt "EMAIL_2", txt "bob@example.com", txt "Invoice", txt "",
    txt "Can you pay the invoice?"⟩

/-- Needs-Action folder holding only `email_invoice`, nothing processed. -/
def planner_state_2 : PlannerState := ⟨[email_invoice], [], [], [], [], [], []⟩

/-- A well-formed plan file in `Approved/`: frontmatter with `email_file:`,
`from:` and `subject:` fields and a fenced `## Suggested Reply` section
(the shape a human-authored or hypothetically fixed plan would have). -/
def c1_plan : PlanFile :=
  ⟨txt "PLAN_20250101_120000_EMAIL_1",
   [txt "---",
    txt "type: email_plan",
    txt "plan_id: PLAN_20250101_120000_EMAIL_1",
    txt "email_file: EMAIL_1.md",
    txt "from: alice@example.com",
    txt "subject: Hello",
    txt "status: approved",
    txt "---",
    txt "",
    txt "## Suggested Reply",
    txt "",
    txt "```",
    txt "Thanks for reaching out.",
    txt "```",
    txt "",
    txt "---"]⟩

/-- Executor configuration whose sends fail transiently. -/
def exec_cfg_fail : ExecCfg := ⟨true, send_fail⟩

/-- Executor state: `c1_plan` approved and unprocessed, its linked email
waiting in `Needs_Action/`. -/
def exec_state_1 : ExecState :=
  ⟨[c1_plan], [],
    [(txt "EMAIL_1.md",
      [txt "---", txt "from: alice@example.com", txt "---", txt "body"])],
    [], [], []⟩

/-! ## Supporting lemmas -/

/-- An unhealthy heartbeat update increments the consecutive-failure count. -/
lemma update_unhealthy_cf (t now : Nat) (h : WatcherHealth) (e : Option Str) :
    (update_heartbeat t now h false e).1.consecutive_failures
      = h.consecutive_failures + 1 := by
  simp [update_heartbeat]

/-- An unhealthy heartbeat update alerts exactly when the incremented count
reaches the alert threshold. -/
lemma update_unhealthy_alert (t now : Nat) (h : WatcherHealth) (e : Option Str) :
    (update_heartbeat t now h false e).2
      = decide (h.consecutive_failures + 1 ≥ t) := by
  simp [update_heartbeat]

/-- A restart attempt under the cap increments the attempt counter, sets
Recovering and computes the exponential backoff. -/
lemma attempt_restart_sanctioned (h : WatcherHealth)
    (hlt : h.restart_attempts < h.max_restart_attempts) :
    attempt_restart h
      = ⟨{ h with restart_attempts := h.restart_attempts + 1, status := WStatus.recovering },
          false,
          some (h.recovery_backoff_seconds * 2 ^ (h.restart_attempts + 1 - 1))⟩ := by
  rw [attempt_restart, if_neg (Nat.not_le.mpr hlt)]

/-- A stale running worker under the alert threshold goes through the
failed marking and then the restart attempt. -/
lemma check_watcher_stale (interval t now hb : Nat) (h : WatcherHealth)
    (hlh : h.last_heartbeat = some hb) (hstale : now - hb > 3 * interval)
    (hrun : h.is_running = true) (hcf : h.consecutive_failures + 1 < t) :
    check_watcher interval t now h = attempt_restart (mark_failed_stale h) := by
  simp only [check_watcher, hlh]
  rw [if_pos (by simp [hstale, hrun]), if_pos (by simp [mark_failed_stale]; omega)]

/-- Appending an element to a list makes `contains` find it. -/
lemma contains_snoc_self (l : List Str) (x : Str) :
    (l ++ [x]).contains x = true := by
  induction l with
  | nil => simp
  | cons a l ih => simp [ih]

/-- `_archive_email` does not touch the processed cache. -/
lemma archive_email_cache (st : PlannerState) (f : EmailFile) :
    (archive_email st f).cache = st.cache := rfl

/-- `_auto_send_email` does not touch the processed cache in any branch. -/
lemma auto_send_email_cache (cfg : PlannerCfg) (st : PlannerState)
    (f : EmailFile) (a : KeywordAnalysis) :
    (auto_send_email cfg st f a).1.cache = st.cache := by
  unfold auto_send_email
  dsimp only
  repeat' split
  all_goals rfl

/-- A false Boolean equation refutes the corresponding coerced condition. -/
lemma ne_true_of_eq_false {b : Bool} (h : b = false) : ¬ (b = true) := by
  simp [h]

/-- A cached stem makes the planner loop body a strict no-op. -/
lemma plan_step_cached (cfg : PlannerCfg) (st : PlannerState) (f : EmailFile)
    (h : st.cache.contains f.stem = true) :
    plan_step cfg st f = (st, none) := by
  rw [plan_step, if_pos h]

/-- An uncached stem reaches the classification branch. -/
lemma plan_step_uncached (cfg : PlannerCfg) (st : PlannerState) (f : EmailFile)
    (h : st.cache.contains f.stem = false) :
    plan_step cfg st f
      = plan_branch cfg st f (analyze f.fromAddr f.subject f.body) := by
  rw [plan_step, if_neg (ne_true_of_eq_false h)]

/-- Archived branch: the stem is appended to the cache. -/
lemma plan_branch_cache_archived (cfg : PlannerCfg) (st : PlannerState)
    (f : EmailFile) (a : KeywordAnalysis) (hn : a.needs_reply = false) :
    (plan_branch cfg st f a).1.cache = st.cache ++ [f.stem] := by
  rw [plan_branch, if_pos (by simp [hn])]
  rfl

/-- Auto-send branch: the stem is appended to the cache whatever the send
outcome was. -/
lemma plan_branch_cache_auto (cfg : PlannerCfg) (st : PlannerState)
    (f : EmailFile) (a : KeywordAnalysis) (hn : a.needs_reply = true)
    (ha : a.auto_approve = true) :
    (plan_branch cfg st f a).1.cache = st.cache ++ [f.stem] := by
  rw [plan_branch, if_neg (by simp [hn]), if_pos (by simp [ha])]
  exact auto_send_email_cache cfg st f a ▸ rfl

/-- Review-plan branch: the `conversation_context` exception fires, the
state is left untouched and an error result is reported. -/
lemma plan_branch_err (cfg : PlannerCfg) (st : PlannerState) (f : EmailFile)
    (a : KeywordAnalysis) (hn : a.needs_reply = true)
    (ha : a.auto_approve = false) :
    plan_branch cfg st f a
      = (st, some ⟨f.stem ++ txt ".md", .err, none, none,
          some conversation_context_error⟩) := by
  rw [plan_branch, if_neg (by simp [hn]), if_neg (by simp [ha])]
  rfl

/-! ## Claims about the health supervisor and the approval flags -/

/-- C7 (counterexample): with the default alert threshold 5, a single
uninterrupted streak of 6 unhealthy heartbeats on a freshly registered
worker emits 2 alerts, refuting "exactly one alert per streak"; the streak
of exactly 5 emits the first one already. -/
theorem c7_two_alerts_in_one_streak :
    (run_unhealthy 5 (register_watcher 3 0) 6).2 = 2 ∧
    (run_unhealthy 5 (register_watcher 3 0) 5).2 = 1 := by
  constructor <;> decide

/-- C7 (amended): `update_heartbeat` has no once-per-streak guard; during an
uninterrupted unhealthy streak an alert is emitted at every update whose
consecutive-failure count is at least the threshold, so a streak of `n`
updates starting from `c` prior consecutive failures emits
`min n (c + n + 1 - t)` alerts — for a fresh worker and `n ≥ t ≥ 1`, that is
`n - t + 1` alerts, not exactly one. -/
theorem c7_alert_count (t : Nat) (h : WatcherHealth) (n : Nat) :
    (run_unhealthy t h n).2
      = min n (h.consecutive_failures + n + 1 - t) := by
  induction n generalizing h with
  | zero => simp [run_unhealthy]
  | succ n ih =>
    simp only [run_unhealthy]
    rw [ih]
    simp only [update_unhealthy_cf, update_unhealthy_alert]
    by_cases hc : t ≤ h.consecutive_failures + 1
    · rw [if_pos (by simpa using hc)]
      omega
    · rw [if_neg (by simpa using hc)]
      omega

/-- C8: a running worker with a heartbeat staler than three health-check
intervals is marked Failed; when the incremented failure count is under the
alert threshold a restart is sanctioned, taking a fresh worker's
restartAttempts to 1 (status Recovering); restartAttempts never exceeds
maxRestartAttempts under any supervisor operation; and at the cap a further
attempt escalates to an alert leaving the record unchanged. -/
theorem c8_stale_failed_restart_bounded (interval t now hb : Nat)
    (h : WatcherHealth) :
    (h.last_heartbeat = some hb → now - hb > 3 * interval → h.is_running = true →
      h.consecutive_failures + 1 < t → h.restart_attempts = 0 →
      0 < h.max_restart_attempts →
      (mark_failed_stale h).status = .failed ∧
      (check_watcher interval t now h).health.restart_attempts = 1 ∧
      (check_watcher interval t now h).health.status = .recovering) ∧
    (h.restart_attempts ≤ h.max_restart_attempts →
      (check_watcher interval t now h).health.restart_attempts
          ≤ h.max_restart_attempts ∧
      (attempt_restart h).health.restart_attempts ≤ h.max_restart_attempts ∧
      (update_heartbeat t now h false none).1.restart_attempts
          ≤ h.max_restart_attempts) ∧
    (h.restart_attempts = h.max_restart_attempts →
      attempt_restart h = ⟨h, true, none⟩) := by
  refine ⟨?_, ?_, ?_⟩
  · intro hlh hstale hrun hcf hra hmax
    rw [check_watcher_stale interval t now hb h hlh hstale hrun hcf,
      attempt_restart_sanctioned (mark_failed_stale h)
        (by simp [mark_failed_stale]; omega)]
    simp [mark_failed_stale, hra]
  · intro hle
    have hat : ∀ g : WatcherHealth, g.restart_attempts ≤ g.max_restart_attempts →
        (attempt_restart g).health.restart_attempts ≤ g.max_restart_attempts := by
      intro g hg
      rw [attempt_restart]
      split
      · exact hg
      · simp
        omega
    refine ⟨?_, hat h hle, by simpa [update_heartbeat] using hle⟩
    cases hlh : h.last_heartbeat with
    | none => simpa [check_watcher, hlh] using hle
    | some hb' =>
      simp only [check_watcher, hlh]
      split
      · split
        · have := hat (mark_failed_stale h) (by simpa [mark_failed_stale] using hle)
          simpa [mark_failed_stale] using this
        · simpa [mark_failed_stale] using hle
      · exact hle
  · intro heq
    rw [attempt_restart, if_pos (by omega)]

/-- C8 (witness): instantiation at a fresh worker (maxRestartAttempts 3,
backoff 30s) registered at time 0 whose heartbeat is 200s old with a 30s
interval and threshold 5, plus a worker already at the cap. -/
theorem c8_stale_failed_restart_bounded_witness :
    ((mark_failed_stale (register_watcher 3 0)).status = .failed ∧
      (check_watcher 30 5 200 (register_watcher 3 0)).health.restart_attempts = 1 ∧
      (check_watcher 30 5 200 (register_watcher 3 0)).health.status = .recovering) ∧
    (check_watcher 30 5 200 (register_watcher 3 0)).health.restart_attempts
        ≤ (register_watcher 3 0).max_restart_attempts ∧
    attempt_restart { register_watcher 3 0 with restart_attempts := 3 }
      = ⟨{ register_watcher 3 0 with restart_attempts := 3 }, true, none⟩ :=
  ⟨(c8_stale_failed_restart_bounded 30 5 200 0 (register_watcher 3 0)).1
      (by decide) (by decide) (by decide) (by decide) (by decide) (by decide),
    ((c8_stale_failed_restart_bounded 30 5 200 0 (register_watcher 3 0)).2.1
      (by decide)).1,
    (c8_stale_failed_restart_bounded 30 5 200 0
      { register_watcher 3 0 with restart_attempts := 3 }).2.2 (by decide)⟩

/-- C9: a sanctioned restart attempt (attempt number `restart_attempts + 1`)
computes backoff `recovery_backoff_seconds * 2 ^ (n - 1)`, and for three
consecutive sanctioned attempts from a fresh record the backoffs are
strictly increasing. -/
theorem c9_backoff_exponential (h : WatcherHealth) :
    (h.restart_attempts < h.max_restart_attempts →
      (attempt_restart h).backoff
        = some (h.recovery_backoff_seconds * 2 ^ (h.restart_attempts + 1 - 1))) ∧
    (h.restart_attempts = 0 → 3 ≤ h.max_restart_attempts →
      0 < h.recovery_backoff_seconds →
      (attempt_restart h).backoff = some (h.recovery_backoff_seconds * 2 ^ 0) ∧
      (attempt_restart (attempt_restart h).health).backoff
        = some (h.recovery_backoff_seconds * 2 ^ 1) ∧
      (attempt_restart (attempt_restart (attempt_restart h).health).health).backoff
        = some (h.recovery_backoff_seconds * 2 ^ 2) ∧
      h.recovery_backoff_seconds * 2 ^ 0 < h.recovery_backoff_seconds * 2 ^ 1 ∧
      h.recovery_backoff_seconds * 2 ^ 1 < h.recovery_backoff_seconds * 2 ^ 2) := by
  constructor
  · intro hlt
    rw [attempt_restart_sanctioned h hlt]
  · intro h0 h3 hbase
    rw [attempt_restart_sanctioned h (by omega)]
    simp only
    rw [attempt_restart_sanctioned _ (by simp; omega)]
    simp only
    rw [attempt_restart_sanctioned _ (by simp; omega)]
    simp only [h0]
    refine ⟨trivial, by norm_num, by norm_num, ?_, ?_⟩
    · have e0 : (2 : Nat) ^ 0 = 1 := by norm_num
      have e1 : (2 : Nat) ^ 1 = 2 := by norm_num
      omega
    · have e1 : (2 : Nat) ^ 1 = 2 := by norm_num
      have e2 : (2 : Nat) ^ 2 = 4 := by norm_num
      omega

/-- C9 (witness): the default fresh worker record (backoff base 30s, cap 3)
yields backoffs 30, 60, 120 for attempts 1, 2, 3. -/
theorem c9_backoff_exponential_witness :
    (attempt_restart (register_watcher 3 0)).backoff = some (30 * 2 ^ 0) ∧
    30 * 2 ^ 0 < 30 * 2 ^ 1 :=
  ⟨((c9_backoff_exponential (register_watcher 3 0)).2
      (by decide) (by decide) (by decide)).1,
    ((c9_backoff_exponential (register_watcher 3 0)).2
      (by decide) (by decide) (by decide)).2.2.2.1⟩

/-- The `needs_reply` field of `analyze` unfolds to `_needs_reply` on the
combined text (independent of the sender). -/
lemma analyze_needs_reply (sender subject body : Str)
    (hist : Option (List Unit)) :
    (analyze sender subject body hist).needs_reply
      = needs_reply_fn (combinedText subject body)
          (extract_action_items (combinedText subject body)) := rfl

/-- The `risk_score` field of `analyze` unfolds to the `_assess_risk` score
on the combined text (independent of the sender). -/
lemma analyze_risk_score (sender subject body : Str)
    (hist : Option (List Unit)) :
    (analyze sender subject body hist).risk_score
      = (assess_risk (combinedText subject body)).2.1 := rfl

/-- The `auto_approve` field of `analyze` unfolds to `_determine_approval`
on the combined text (independent of the sender). -/
lemma analyze_auto_approve (sender subject body : Str)
    (hist : Option (List Unit)) :
    (analyze sender subject body hist).auto_approve
      = (determine_approval (combinedText subject body)
          ((assess_risk (combinedText subject body)).2.1)
          (extract_business_terms (combinedText subject body))
          (extract_action_items (combinedText subject body)) hist).1 := rfl

/-- The `business_terms` field of `analyze` unfolds to
`_extract_business_terms` on the combined text. -/
lemma analyze_business_terms (sender subject body : Str)
    (hist : Option (List Unit)) :
    (analyze sender subject body hist).business_terms
      = extract_business_terms (combinedText subject body) := rfl

/-- The `action_items` field of `analyze` unfolds to
`_extract_action_items` on the combined text. -/
lemma analyze_action_items (sender subject body : Str)
    (hist : Option (List Unit)) :
    (analyze sender subject body hist).action_items
      = extract_action_items (combinedText subject body) := by
  simp only [analyze]

/-- Branch analysis of `_determine_approval`: with a safe pattern, risk
under 25, at most one action item, no business term and no conversation
history, the auto-approve branch is reached. -/
lemma determine_approval_safe (text : Str) (risk : Nat) (items : List Str)
    (hsafe : is_safe_pattern text = true) (hr : risk < 25)
    (hi : items.length ≤ 1) :
    (determine_approval text risk [] items none).1 = true := by
  unfold determine_approval
  rw [if_neg (by omega), if_neg (by simp), if_neg (by omega),
    if_neg (by simp), if_pos (by simp [hsafe, hr])]

/-- Branch analysis of `_determine_approval`: any business-critical term
forces the no-auto-approve outcome, whatever the other signals. -/
lemma determine_approval_terms (text : Str) (risk : Nat) (terms items : List Str)
    (hist : Option (List Unit)) (ht : terms ≠ []) :
    (determine_approval text risk terms items hist).1 = false := by
  unfold determine_approval
  by_cases h50 : risk ≥ 50
  · rw [if_pos h50]
  · rw [if_neg h50, if_pos (by simpa using ht)]

/-- C5 (counterexample): the body "Thanks, got the file!" matches the safe
pattern `thanks`, has risk score 15 < 25 (one business-critical term, `file`,
at +15) and no action items, yet is not auto-approved, because the
business-term check precedes the safe-pattern check. -/
theorem c5_business_term_blocks_safe_ack :
    is_safe_pattern (combinedText (txt "") (txt "Thanks, got the file!")) = true ∧
    (analyze (txt "bob@example.com") (txt "") (txt "Thanks, got the file!")).risk_score = 15 ∧
    (analyze (txt "bob@example.com") (txt "") (txt "Thanks, got the file!")).action_items = [] ∧
    (analyze (txt "bob@example.com") (txt "") (txt "Thanks, got the file!")).business_terms
      = [txt "file"] ∧
    (analyze (txt "bob@example.com") (txt "") (txt "Thanks, got the file!")).auto_approve
      = false := by
  refine ⟨by decide, by decide, by decide, by decide, by decide⟩

/-- C5 (amended): a safe-acknowledgment text with risk score below 25, at
most one action item and no business-critical term is auto-approved; and a
text containing any business-critical term is never auto-approved,
regardless of all other signals. -/
theorem c5_auto_approve_amended (sender subject body : Str) :
    (is_safe_pattern (combinedText subject body) = true →
      (analyze sender subject body).risk_score < 25 →
      (analyze sender subject body).action_items.length ≤ 1 →
      (analyze sender subject body).business_terms = [] →
      (analyze sender subject body).auto_approve = true) ∧
    ((analyze sender subject body).business_terms ≠ [] →
      (analyze sender subject body).auto_approve = false) := by
  constructor
  · intro hsafe hr hi ht
    rw [analyze_auto_approve]
    rw [analyze_risk_score] at hr
    rw [analyze_action_items] at hi
    rw [analyze_business_terms] at ht
    rw [ht]
    exact determine_approval_safe _ _ _ hsafe hr hi
  · intro ht
    rw [analyze_auto_approve]
    rw [analyze_business_terms] at ht
    exact determine_approval_terms _ _ _ _ _ ht

/-- C5 (witness): "thanks, got it!" satisfies all amended hypotheses and is
auto-approved; "Thanks, got the file!" carries the business term `file` and
is not. -/
theorem c5_auto_approve_amended_witness :
    (analyze (txt "alice@example.com") (txt "") (txt "Thanks, got it!")).auto_approve
        = true ∧
    (analyze (txt "bob@example.com") (txt "") (txt "Thanks, got the file!")).auto_approve
        = false :=
  ⟨(c5_auto_approve_amended (txt "alice@example.com") (txt "") (txt "Thanks, got it!")).1
      (by decide) (by decide) (by decide) (by decide),
    (c5_auto_approve_amended (txt "bob@example.com") (txt "")
      (txt "Thanks, got the file!")).2 (by decide)⟩

/-- C6 (counterexample): for the body "Thanks, got it!" (empty subject) the
classifier returns `needs_reply = false` — no question mark, action item,
request indicator or forward marker is present — contradicting the claimed
`needs_reply = true`. -/
theorem c6_thanks_needs_no_reply :
    (analyze (txt "alice@example.com") (txt "") (txt "Thanks, got it!")).needs_reply
      = false := by
  decide

/-- C6 (amended): for any sender, body "Thanks, got it!" with empty subject
yields `needs_reply = false`, risk score 0 (hence below 25) and
`auto_approve = true`. -/
theorem c6_scenario_b_amended (sender : Str) :
    (analyze sender (txt "") (txt "Thanks, got it!")).needs_reply = false ∧
    (analyze sender (txt "") (txt "Thanks, got it!")).risk_score = 0 ∧
    (analyze sender (txt "") (txt "Thanks, got it!")).risk_score < 25 ∧
    (analyze sender (txt "") (txt "Thanks, got it!")).auto_approve = true := by
  rw [analyze_needs_reply, analyze_risk_score, analyze_auto_approve]
  refine ⟨by decide, by decide, by decide, by decide⟩

/-- C10: in every branch of `_determine_approval` the two returned flags are
exact complements: `auto_approve = not requires_human_review`. -/
theorem c10_flags_complement (text : Str) (risk : Nat) (terms items : List Str)
    (hist : Option (List Unit)) :
    (determine_approval text risk terms items hist).1
      = !(determine_approval text risk terms items hist).2 := by
  unfold determine_approval
  split_ifs <;> rfl

/-! ## Claims about the email planning workflow -/

/-- C3: ingestion is idempotent. An email whose stem is already in the
planner's processed cache is skipped by the loop body with no state change
and no result entry; consequently, when every listed email is already
cached, a whole `plan_all_emails` call returns the state unchanged with an
empty result list. -/
theorem c3_ingest_idempotent (cfg : PlannerCfg) (st : PlannerState) :
    (∀ f : EmailFile, st.cache.contains f.stem = true →
      plan_step cfg st f = (st, none)) ∧
    ((∀ f ∈ planner_glob st, st.cache.contains f.stem = true) →
      plan_all_emails cfg st = (st, [])) := by
  have hstep : ∀ f : EmailFile, st.cache.contains f.stem = true →
      plan_step cfg st f = (st, none) := fun f hf => plan_step_cached cfg st f hf
  refine ⟨hstep, ?_⟩
  intro hall
  have hfold : ∀ l : List EmailFile,
      (∀ f ∈ l, st.cache.contains f.stem = true) →
      l.foldl
        (fun acc f =>
          let stepped := plan_step cfg acc.1 f
          (stepped.1, acc.2 ++ stepped.2.toList))
        (st, ([] : List PlanResult)) = (st, []) := by
    intro l
    induction l with
    | nil => intro _; rfl
    | cons f l ih =>
      intro hl
      have h1 := hstep f (hl f (by simp))
      simp only [List.foldl_cons, h1]
      simpa using ih (fun g hg => hl g (by simp [hg]))
  simpa only [plan_all_emails] using hfold (planner_glob st) hall

/-- C3 (witness): a second pass over `EMAIL_1` after it entered the cache is
a strict no-op. -/
theorem c3_ingest_idempotent_witness :
    plan_step planner_cfg_fail planner_state_1c email_got_it
      = (planner_state_1c, none) :=
  (c3_ingest_idempotent planner_cfg_fail planner_state_1c).1 email_got_it
    (by decide)

/-- C4 (counterexample): `EMAIL_1` ("got it?") is classified auto-approve,
its auto-send fails (`send_ok` returns false), the result records
`success = false`, yet the stem is added to the processed cache — the item
is not retried on the next cycle although its transition never completed. -/
theorem c4_failed_autosend_cached :
    (plan_all_emails planner_cfg_fail planner_state_1).2.map PlanResult.action
        = [PlanActionKind.auto_sent] ∧
    (plan_all_emails planner_cfg_fail planner_state_1).2.map PlanResult.success
        = [some false] ∧
    (plan_all_emails planner_cfg_fail planner_state_1).1.cache = [txt "EMAIL_1"] ∧
    (plan_all_emails planner_cfg_fail planner_state_1).1.needs_action
        = [email_got_it] := by
  refine ⟨by decide, by decide, by decide, by decide⟩

/-- C4 (amended): the loop body adds the stem to the processed cache once
the archive or auto-send branch ran, whether or not the send succeeded;
only the plan-creation branch — which always dies in an exception — leaves
the cache unchanged (state untouched, result `error`) so only that case is
retried on the next cycle. -/
theorem c4_cache_add_unconditional (cfg : PlannerCfg) (st : PlannerState)
    (f : EmailFile) (h : st.cache.contains f.stem = false) :
    ((analyze f.fromAddr f.subject f.body).needs_reply = false ∨
        (analyze f.fromAddr f.subject f.body).auto_approve = true →
      (plan_step cfg st f).1.cache.contains f.stem = true) ∧
    ((analyze f.fromAddr f.subject f.body).needs_reply = true →
      (analyze f.fromAddr f.subject f.body).auto_approve = false →
      (plan_step cfg st f).1 = st ∧
      (plan_step cfg st f).2.map PlanResult.action = some PlanActionKind.err) := by
  rw [plan_step_uncached cfg st f h]
  constructor
  · intro hcase
    by_cases hn : (analyze f.fromAddr f.subject f.body).needs_reply = true
    · have ha : (analyze f.fromAddr f.subject f.body).auto_approve = true := by
        rcases hcase with hc | hc
        · rw [hn] at hc; cases hc
        · exact hc
      rw [plan_branch_cache_auto cfg st f _ hn ha]
      exact contains_snoc_self _ _
    · have hn' : (analyze f.fromAddr f.subject f.body).needs_reply = false := by
        revert hn
        cases (analyze f.fromAddr f.subject f.body).needs_reply <;> simp
      rw [plan_branch_cache_archived cfg st f _ hn']
      exact contains_snoc_self _ _
  · intro hn ha
    rw [plan_branch_err cfg st f _ hn ha]
    exact ⟨rfl, rfl⟩

/-- C4 (witness): instantiation of the amended claim at `EMAIL_1` (cache
add despite the failing auto-send) and `EMAIL_2` (error branch leaves the
state untouched). -/
theorem c4_cache_add_unconditional_witness :
    (plan_step planner_cfg_fail planner_state_1 email_got_it).1.cache.contains
        email_got_it.stem = true ∧
    (plan_step planner_cfg_fail planner_state_2 email_invoice).1
        = planner_state_2 :=
  ⟨(c4_cache_add_unconditional planner_cfg_fail planner_state_1 email_got_it
      (by decide)).1 (Or.inr (by decide)),
    ((c4_cache_add_unconditional planner_cfg_fail planner_state_2 email_invoice
      (by decide)).2 (by decide) (by decide)).1⟩

/-! ## Claims about the approved-plan executor -/

/-- `_execute_plan` never touches the processed set (only the loop does). -/
lemma execute_plan_processed (cfg : ExecCfg) (st : ExecState) (p : PlanFile) :
    (execute_plan cfg st p).1.processed = st.processed := by
  unfold execute_plan move_plan_to_done move_email_to_inbox
  dsimp only
  repeat' split
  all_goals rfl

/-- `_execute_plan` either succeeds or leaves the `Approved/` folder as it
found it. -/
lemma execute_plan_false_or (cfg : ExecCfg) (st : ExecState) (p : PlanFile) :
    (execute_plan cfg st p).2 = true
      ∨ (execute_plan cfg st p).1.approved = st.approved := by
  unfold execute_plan move_plan_to_done move_email_to_inbox
  dsimp only
  repeat' split
  all_goals first | exact Or.inl rfl | exact Or.inr rfl

/-- `contains` is preserved when a list is extended on the right. -/
lemma contains_append_l (l l' : List Str) (x : Str)
    (h : l.contains x = true) : (l ++ l').contains x = true := by
  induction l with
  | nil => cases h
  | cons a l ih =>
    simp_all
    tauto

/-- One executor loop iteration preserves membership in the processed set. -/
lemma exec_step_processed_mono (cfg : ExecCfg) (acc : ExecState × Nat)
    (q : PlanFile) (x : Str) (h : acc.1.processed.contains x = true) :
    (exec_step cfg acc q).1.processed.contains x = true := by
  unfold exec_step
  split
  · exact h
  · dsimp only
    rw [execute_plan_processed]
    exact contains_append_l _ _ _ h

/-- The executor fold preserves membership in the processed set. -/
lemma exec_fold_processed_mono (cfg : ExecCfg) (l : List PlanFile)
    (acc : ExecState × Nat) (x : Str) (h : acc.1.processed.contains x = true) :
    ((l.foldl (exec_step cfg) acc).1.processed.contains x = true) := by
  induction l generalizing acc with
  | nil => exact h
  | cons q l ih => exact ih _ (exec_step_processed_mono cfg acc q x h)

/-- Every plan visited by the executor fold ends up in the processed set. -/
lemma exec_fold_processed_mem (cfg : ExecCfg) (l : List PlanFile)
    (acc : ExecState × Nat) (p : PlanFile) (h : p ∈ l) :
    ((l.foldl (exec_step cfg) acc).1.processed.contains p.id = true) := by
  induction l generalizing acc with
  | nil => cases h
  | cons q l ih =>
    rcases List.mem_cons.mp h with rfl | h
    · by_cases hc : acc.1.processed.contains p.id = true
      · exact exec_fold_processed_mono cfg l _ _
          (exec_step_processed_mono cfg acc p p.id hc)
      · refine exec_fold_processed_mono cfg l _ _ ?_
        unfold exec_step
        rw [if_neg hc]
        dsimp only
        rw [execute_plan_processed]
        exact contains_snoc_self _ _
    · exact ih _ h

/-- C1 (counterexample): `c1_plan` is well-formed (recipient, subject and
reply extracted; the send is attempted) and its send fails transiently, the
plan stays in `Approved/` — yet its id is added to the executor's processed
set, so the next `check_and_execute` will not retry it, contradicting the
claimed at-least-once retry. -/
theorem c1_transient_failure_marked_processed :
    (execute_plan exec_cfg_fail exec_state_1 c1_plan).2 = false ∧
    (execute_plan exec_cfg_fail exec_state_1 c1_plan).1.sent_attempts
      = [(txt "alice@example.com", txt "Re: Hello", txt "Thanks for reaching out.")] ∧
    (check_and_execute exec_cfg_fail exec_state_1).1.approved = [c1_plan] ∧
    (check_and_execute exec_cfg_fail exec_state_1).1.processed = [c1_plan.id] := by
  refine ⟨by decide, by decide, by decide, by decide⟩

/-- C1 (amended): `check_and_execute` adds every scanned `PLAN_`-prefixed
approved plan's id to its ProcessedIdSet whether or not execution succeeded
("even if failed, to avoid infinite retry"); a failing execution leaves the
`Approved/` folder unchanged at its step, and a processed id makes the step
a strict no-op, so the same executor instance never retries a failed send. -/
theorem c1_processed_regardless_of_send (cfg : ExecCfg) (st : ExecState)
    (p : PlanFile) (hmem : p ∈ st.approved)
    (hpre : startsWithS p.id (txt "PLAN_") = true) :
    ((check_and_execute cfg st).1.processed.contains p.id = true) ∧
    (∀ acc : ExecState × Nat, acc.1.processed.contains p.id = false →
      (execute_plan cfg acc.1 p).2 = false →
      (exec_step cfg acc p).1.processed.contains p.id = true ∧
      (exec_step cfg acc p).1.approved = acc.1.approved) ∧
    (∀ acc : ExecState × Nat, acc.1.processed.contains p.id = true →
      exec_step cfg acc p = acc) := by
  refine ⟨?_, ?_, ?_⟩
  · exact exec_fold_processed_mem cfg _ _ p (List.mem_filter.mpr ⟨hmem, hpre⟩)
  · intro acc hc hfail
    constructor
    · unfold exec_step
      rw [if_neg (ne_true_of_eq_false hc)]
      dsimp only
      rw [execute_plan_processed]
      exact contains_snoc_self _ _
    · unfold exec_step
      rw [if_neg (ne_true_of_eq_false hc)]
      dsimp only
      rcases execute_plan_false_or cfg acc.1 p with hs | hs
      · rw [hs] at hfail; cases hfail
      · exact hs
  · intro acc hc
    unfold exec_step
    rw [if_pos hc]

/-- C1 (witness): instantiation at `exec_state_1` with the failing sender:
the id lands in the processed set and the step leaves `Approved/` alone. -/
theorem c1_processed_regardless_of_send_witness :
    (check_and_execute exec_cfg_fail exec_state_1).1.processed.contains
        c1_plan.id = true ∧
    (exec_step exec_cfg_fail (exec_state_1, 0) c1_plan).1.approved
        = exec_state_1.approved :=
  ⟨(c1_processed_regardless_of_send exec_cfg_fail exec_state_1 c1_plan
      (by decide) (by decide)).1,
    ((c1_processed_regardless_of_send exec_cfg_fail exec_state_1 c1_plan
      (by decide) (by decide)).2.1 (exec_state_1, 0)
      (by decide) (by decide)).2⟩

/-- C2 (code bug): for the needs-review email `EMAIL_2` ("Can you pay the
invoice?"), `_create_review_plan` raises `AttributeError` (the
`KeywordAnalysis` dataclass has no `conversation_context` attribute) before
any plan file is written: `plan_all_emails` reports an error, writes no plan
and leaves the state unchanged, so no Plan created by this writer can ever
reach `Approved/`. Moreover the content it builds carries no `from:` line
and no `## Suggested Reply` heading, so the executor's extraction regexes
could not parse such a plan even if it were written. -/
theorem c2_plan_creation_raises :
    create_review_plan planner_cfg_fail (txt "EMAIL_2.md")
        (analyze (txt "bob@example.com") (txt "Invoice") (txt "Can you pay the invoice?"))
        (txt "bob@example.com") (txt "Invoice")
      = Except.error conversation_context_error ∧
    plan_all_emails planner_cfg_fail planner_state_2
      = (planner_state_2,
          [⟨txt "EMAIL_2.md", .err, none, none, some conversation_context_error⟩]) ∧
    (review_plan_header (txt "PLAN_20250101_120000_EMAIL_2") (txt "EMAIL_2.md")
        (analyze (txt "bob@example.com") (txt "Invoice") (txt "Can you pay the invoice?"))
        (txt "bob@example.com") (txt "Invoice")
        (txt "2025-01-01T12:00:00") (txt "2025-01-01 12:00")).all
      (fun l => !(pyIn (txt "from:") l)) = true ∧
    (review_plan_header (txt "PLAN_20250101_120000_EMAIL_2") (txt "EMAIL_2.md")
        (analyze (txt "bob@example.com") (txt "Invoice") (txt "Can you pay the invoice?"))
        (txt "bob@example.com") (txt "Invoice")
        (txt "2025-01-01T12:00:00") (txt "2025-01-01 12:00")).all
      (fun l => !(pyIn (txt "## Suggested Reply") l)) = true := by
  refine ⟨rfl, by decide, by decide, by decide⟩

end AIEmployee
